import Mathlib

/-! Fabric gateway client bridge (`trustdbleClient.go`).

A shallow embedding of `adapter/fabric/adapter/extern/go_client/trustdbleClient.go`.

Modelling decisions.

* Go `string` values are Lean `String`s; `[]byte` values are lists of `UInt8`.
* The operating system, the Fabric gateway library and gRPC are not part of the
  repository.  Every call into them is a field of `Env`; a Go `(value, error)`
  result is an `Except String value`.  One `Env` describes the world during one call.
* A Go run-time panic (here: indexing an empty slice) is an explicit outcome, separate
  from a returned `error`.
* `Write` and `Read` yield, besides their result, the trace of the calls their bodies
  make, in execution order.  A deferred call is appended when the function exits,
  whether by `return` or by panic.
* `log.Println` / `log.Printf` only write to the process log and are left out.
-/

namespace TrustdbleClient

/-! ## Values of the external libraries -/

/-- Go `[]byte`. -/
abbrev Bytes := List UInt8

/-- Handle of a parsed `*x509.Certificate`. -/
structure Certificate where
  id : Nat
deriving DecidableEq, Repr

/-- Handle of a parsed `crypto.PrivateKey`. -/
structure PrivateKey where
  id : Nat
deriving DecidableEq, Repr

/-- Handle of an `identity.Sign` function. -/
structure Sign where
  id : Nat
deriving DecidableEq, Repr

/-- Handle of an `*identity.X509Identity`. -/
structure X509Identity where
  id : Nat
deriving DecidableEq, Repr

/-- The part of `fs.FileInfo` the program uses: `Name()`. -/
structure FileInfo where
  Name : String
deriving DecidableEq, Repr

/-- Result of `x509.NewCertPool` + `AddCert` + `credentials.NewClientTLSFromCert`:
the pool of root certificates and the server name to verify. -/
structure TransportCredentials where
  certPool : List Certificate
  serverNameOverride : String
deriving DecidableEq, Repr

/-- Handle of a `*grpc.ClientConn`. -/
structure ClientConn where
  id : Nat
deriving DecidableEq, Repr

/-- Handle of a `*client.Gateway`. -/
structure Gateway where
  id : Nat
deriving DecidableEq, Repr

/-- A `*client.Network`: a local binding of a gateway and a channel name. -/
structure Network where
  gateway : Gateway
  name : String
deriving DecidableEq, Repr

/-- A `*client.Contract`: a local binding of a network and a chaincode name. -/
structure Contract where
  network : Network
  chaincodeName : String
deriving DecidableEq, Repr

/-- Go `time.Duration`: a count of nanoseconds. -/
abbrev Duration := Nat

/-- Go `time.Second`. -/
def Second : Duration := 1000000000

/-- Go `time.Minute`. -/
def Minute : Duration := 60 * Second

/-- The `client.ConnectOption`s the program passes to `client.Connect`. -/
inductive ConnectOption where
  | WithSign (sign : Sign)
  | WithClientConnection (clientConnection : ClientConn)
  | WithEvaluateTimeout (timeout : Duration)
  | WithEndorseTimeout (timeout : Duration)
  | WithSubmitTimeout (timeout : Duration)
  | WithCommitStatusTimeout (timeout : Duration)
deriving DecidableEq, Repr

/-- The world outside the repository, as seen during one call. -/
structure Env where
  /-- Go `os.UserHomeDir()`. -/
  UserHomeDir : Except String String
  /-- Go `ioutil.ReadFile(name)`. -/
  ReadFile : String → Except String Bytes
  /-- Go `ioutil.ReadDir(name)`. -/
  ReadDir : String → Except String (List FileInfo)
  /-- Go `path.Join(a, b)`. -/
  Join : String → String → String
  /-- Go `identity.CertificateFromPEM`. -/
  CertificateFromPEM : Bytes → Except String Certificate
  /-- Go `identity.PrivateKeyFromPEM`. -/
  PrivateKeyFromPEM : Bytes → Except String PrivateKey
  /-- Go `identity.NewPrivateKeySign`. -/
  NewPrivateKeySign : PrivateKey → Except String Sign
  /-- Go `identity.NewX509Identity(mspID, certificate)`. -/
  NewX509Identity : String → Certificate → Except String X509Identity
  /-- Go `grpc.Dial(target, grpc.WithTransportCredentials(creds))`. -/
  Dial : String → TransportCredentials → Except String ClientConn
  /-- Go `client.Connect(id, options...)`. -/
  Connect : X509Identity → List ConnectOption → Except String Gateway
  /-- Go `contract.SubmitTransaction(name, args...)`. -/
  SubmitTransaction : Contract → String → List String → Except String Bytes
  /-- Go `contract.EvaluateTransaction(name, args...)`. -/
  EvaluateTransaction : Contract → String → List String → Except String Bytes

/-! ## Go library functions with a fixed meaning -/

/-- Go `strings.ReplaceAll(s, old, new)` on character lists, for a non-empty `old`:
scanning from the left, every non-overlapping occurrence of `old` becomes `new`.
`skip` counts the characters of a matched occurrence that are still to be passed over. -/
def replaceAllChars (old new : List Char) : Nat → List Char → List Char
  | _, [] => []
  | skip + 1, _ :: cs => replaceAllChars old new skip cs
  | 0, c :: cs =>
    if old ≠ [] ∧ old.isPrefixOf (c :: cs) then
      new ++ replaceAllChars old new (old.length - 1) cs
    else
      c :: replaceAllChars old new 0 cs

/-- Go `strings.ReplaceAll` on strings (for a non-empty `old`). -/
def ReplaceAll (s old new : String) : String :=
  ⟨replaceAllChars old.data new.data 0 s.data⟩

/-- Go `C.CString(s)`: a freshly allocated C buffer holding the bytes of `s` followed by
a terminating zero byte. -/
def CString (s : Bytes) : Bytes :=
  s ++ [0]

/-- Go `gateway.GetNetwork(name)`. -/
def Gateway.GetNetwork (gateway : Gateway) (name : String) : Network :=
  ⟨gateway, name⟩

/-- Go `network.GetContract(chaincodeName)`. -/
def Network.GetContract (network : Network) (chaincodeName : String) : Contract :=
  ⟨network, chaincodeName⟩

/-! ## The helper functions of the program -/

/-- Source `readFile` (lines 94-101). -/
def readFile (env : Env) (filename : String) : Except String Bytes :=
  match env.UserHomeDir with
  | .error err => .error ("failed to get home dir: " ++ err)
  | .ok homeDir =>
    let absoluteFilename := ReplaceAll filename "~" homeDir
    env.ReadFile absoluteFilename

/-- Source `readDir` (lines 103-110). -/
def readDir (env : Env) (dirname : String) : Except String (List FileInfo) :=
  match env.UserHomeDir with
  | .error err => .error ("failed to get home dir: " ++ err)
  | .ok homeDir =>
    let absoluteDirname := ReplaceAll dirname "~" homeDir
    env.ReadDir absoluteDirname

/-- Source `loadCertificate` (lines 61-67). -/
def loadCertificate (env : Env) (filename : String) : Except String Certificate :=
  match readFile env filename with
  | .error err => .error ("failed to read certificate file: " ++ err)
  | .ok certificatePEM => env.CertificateFromPEM certificatePEM

/-- Source `newGrpcConnection` (lines 28-44). -/
def newGrpcConnection (env : Env) (tlsCertPath peerEndpoint gatewayPeer : String) :
    Except String ClientConn :=
  match loadCertificate env tlsCertPath with
  | .error err => .error ("failed to load certificate: " ++ err)
  | .ok certificate =>
    let certPool : List Certificate := [certificate]
    let transportCredentials : TransportCredentials := ⟨certPool, gatewayPeer⟩
    match env.Dial peerEndpoint transportCredentials with
    | .error err => .error ("failed to create gRPC connection: " ++ err)
    | .ok connection => .ok connection

/-- Source `newIdentity` (lines 47-59). -/
def newIdentity (env : Env) (mspID certPath : String) : Except String X509Identity :=
  match loadCertificate env certPath with
  | .error err => .error ("failed to load certificate: " ++ err)
  | .ok certificate =>
    match env.NewX509Identity mspID certificate with
    | .error err => .error ("failed to create X509 identity: " ++ err)
    | .ok id => .ok id

/-- Result of a Go function of type `(T, error)` that may also panic. -/
inductive GoResult (α : Type) where
  /-- Returned `(v, nil)`. -/
  | ok (v : α)
  /-- Returned `(nil, err)`. -/
  | error (err : String)
  /-- Did not return: a run-time panic was raised. -/
  | fault (reason : String)
deriving DecidableEq, Repr

/-- Source `newSign` (lines 70-92).  `files[0]` on an empty slice is a run-time panic. -/
def newSign (env : Env) (keyPath : String) : GoResult Sign :=
  match readDir env keyPath with
  | .error err => .error ("failed to read private key directory: " ++ err)
  | .ok files =>
    match files[0]? with
    | none => .fault "index out of range [0] with length 0"
    | some file0 =>
      match readFile env (env.Join keyPath file0.Name) with
      | .error err => .error ("failed to read private key file: " ++ err)
      | .ok privateKeyPEM =>
        match env.PrivateKeyFromPEM privateKeyPEM with
        | .error err => .error ("failed to get private key from file: " ++ err)
        | .ok privateKey =>
          match env.NewPrivateKeySign privateKey with
          | .error err => .error ("failed to get sign function: " ++ err)
          | .ok sign => .ok sign

/-! ## Traces of the exported entry points -/

/-- How a step of an entry point ended. -/
inductive Status where
  /-- The step returned without error. -/
  | ok
  /-- The step returned an `error`. -/
  | failed
  /-- The step raised a run-time panic. -/
  | faulted
deriving DecidableEq, Repr

/-- Status of a `(value, error)` result. -/
def statusOf {α : Type} : Except String α → Status
  | .ok _ => .ok
  | .error _ => .failed

/-- Status of a result that may be a panic. -/
def GoResult.status {α : Type} : GoResult α → Status
  | .ok _ => .ok
  | .error _ => .failed
  | .fault _ => .faulted

/-- The value of a `(value, error)` result, when there is one. -/
def valueOf {α : Type} : Except String α → Option α
  | .ok v => some v
  | .error _ => none

/-- One call made by the body of `Write` or `Read`, with its arguments and how it ended. -/
inductive Event where
  /-- Call of `newGrpcConnection`; `connection` is the transport it built, if any. -/
  | newGrpcConnection (tlsCertPath peerEndpoint gatewayPeer : String)
      (connection : Option ClientConn)
  /-- Call of `newIdentity`. -/
  | newIdentity (mspID certPath : String) (status : Status)
  /-- Call of `newSign`. -/
  | newSign (keyPath : String) (status : Status)
  /-- Call of `client.Connect`; `gateway` is the session it opened, if any. -/
  | Connect (id : X509Identity) (options : List ConnectOption) (gateway : Option Gateway)
  /-- Call of `gateway.GetNetwork`. -/
  | GetNetwork (gateway : Gateway) (name : String)
  /-- Call of `network.GetContract`. -/
  | GetContract (network : Network) (chaincodeName : String)
  /-- Call of `contract.SubmitTransaction`. -/
  | SubmitTransaction (contract : Contract) (name : String) (args : List String)
      (status : Status)
  /-- Call of `contract.EvaluateTransaction`. -/
  | EvaluateTransaction (contract : Contract) (name : String) (args : List String)
      (status : Status)
  /-- Deferred call of `gateway.Close()`. -/
  | GatewayClose (gateway : Gateway)
  /-- Deferred call of `clientConnection.Close()`. -/
  | ConnClose (clientConnection : ClientConn)
deriving DecidableEq, Repr

/-- How a call of an exported function ends. -/
inductive Exit (α : Type) where
  /-- The function returned `v` to its caller. -/
  | returned (v : α)
  /-- The function was left by an unrecovered run-time panic. -/
  | panicked (reason : String)
deriving DecidableEq, Repr

/-- A finished call: how it ended and the calls it made, in order. -/
structure Call (α : Type) where
  exit : Exit α
  trace : List Event
deriving DecidableEq, Repr

/-- Go `return v`. -/
def Call.ret {α : Type} (v : α) : Call α :=
  ⟨.returned v, []⟩

/-- A run-time panic that nothing recovers. -/
def Call.fault {α : Type} (reason : String) : Call α :=
  ⟨.panicked reason, []⟩

/-- The call `e` is made, then the rest of the body runs. -/
def Call.step {α : Type} (e : Event) (rest : Call α) : Call α :=
  ⟨rest.exit, e :: rest.trace⟩

/-- Go `defer e` followed by the rest of the body: `e` runs when the function exits,
by return or by panic, after everything the rest of the body did. -/
def Call.defer {α : Type} (e : Event) (rest : Call α) : Call α :=
  ⟨rest.exit, rest.trace ++ [e]⟩

/-- The options both entry points pass to `client.Connect` (lines 140-146 and 194-200). -/
def connectOptions (sign : Sign) (clientConnection : ClientConn) : List ConnectOption :=
  [ .WithSign sign,
    .WithClientConnection clientConnection,
    .WithEvaluateTimeout (5 * Second),
    .WithEndorseTimeout (15 * Second),
    .WithSubmitTimeout (5 * Second),
    .WithCommitStatusTimeout (1 * Minute) ]

/-- The ten string arguments of `Write` and `Read`, in the order of the Go signature. -/
structure Args where
  json_value : String
  function : String
  channel : String
  contractName : String
  mspID : String
  certPath : String
  keyPath : String
  tlsCertPath : String
  peerEndpoint : String
  gatewayPeer : String
deriving DecidableEq, Repr

/-- Source `Write` (lines 113-164). -/
def Write (env : Env) (a : Args) : Call Int :=
  let r1 := newGrpcConnection env a.tlsCertPath a.peerEndpoint a.gatewayPeer
  Call.step (.newGrpcConnection a.tlsCertPath a.peerEndpoint a.gatewayPeer (valueOf r1)) <|
  match r1 with
  | .error _ => Call.ret 1
  | .ok clientConnection =>
    Call.defer (.ConnClose clientConnection) <|
    let r2 := newIdentity env a.mspID a.certPath
    Call.step (.newIdentity a.mspID a.certPath (statusOf r2)) <|
    match r2 with
    | .error _ => Call.ret 1
    | .ok id =>
      let r3 := newSign env a.keyPath
      Call.step (.newSign a.keyPath r3.status) <|
      match r3 with
      | .fault reason => Call.fault reason
      | .error _ => Call.ret 1
      | .ok sign =>
        let options := connectOptions sign clientConnection
        let r4 := env.Connect id options
        Call.step (.Connect id options (valueOf r4)) <|
        match r4 with
        | .error _ => Call.ret 1
        | .ok gateway =>
          Call.defer (.GatewayClose gateway) <|
          let network := gateway.GetNetwork a.channel
          Call.step (.GetNetwork gateway a.channel) <|
          let contract := network.GetContract a.contractName
          Call.step (.GetContract network a.contractName) <|
          let r5 := env.SubmitTransaction contract a.function [a.json_value]
          Call.step (.SubmitTransaction contract a.function [a.json_value] (statusOf r5)) <|
          match r5 with
          | .error _ => Call.ret 1
          | .ok _ => Call.ret 0

/-- What `Read` returns: the C buffer (`none` is the nil pointer), the length, the status. -/
abbrev ReadResult := Option Bytes × Int × Int

/-- Source `Read` (lines 167-218). -/
def Read (env : Env) (a : Args) : Call ReadResult :=
  let r1 := newGrpcConnection env a.tlsCertPath a.peerEndpoint a.gatewayPeer
  Call.step (.newGrpcConnection a.tlsCertPath a.peerEndpoint a.gatewayPeer (valueOf r1)) <|
  match r1 with
  | .error _ => Call.ret (none, 0, 1)
  | .ok clientConnection =>
    Call.defer (.ConnClose clientConnection) <|
    let r2 := newIdentity env a.mspID a.certPath
    Call.step (.newIdentity a.mspID a.certPath (statusOf r2)) <|
    match r2 with
    | .error _ => Call.ret (none, 0, 1)
    | .ok id =>
      let r3 := newSign env a.keyPath
      Call.step (.newSign a.keyPath r3.status) <|
      match r3 with
      | .fault reason => Call.fault reason
      | .error _ => Call.ret (none, 0, 1)
      | .ok sign =>
        let options := connectOptions sign clientConnection
        let r4 := env.Connect id options
        Call.step (.Connect id options (valueOf r4)) <|
        match r4 with
        | .error _ => Call.ret (none, 0, 1)
        | .ok gateway =>
          Call.defer (.GatewayClose gateway) <|
          let network := gateway.GetNetwork a.channel
          Call.step (.GetNetwork gateway a.channel) <|
          let contract := network.GetContract a.contractName
          Call.step (.GetContract network a.contractName) <|
          let r5 := env.EvaluateTransaction contract a.function [a.json_value]
          Call.step (.EvaluateTransaction contract a.function [a.json_value] (statusOf r5)) <|
          match r5 with
          | .error _ => Call.ret (none, 0, 1)
          | .ok value => Call.ret (some (CString value), (value.length : Int), 0)

/-! ## Concrete worlds used to evaluate the program -/

/-- PEM text standing for a well-formed certificate. -/
def goodCertPEM : Bytes := [45, 45, 67]

/-- PEM text standing for a well-formed private key. -/
def goodKeyPEM : Bytes := [45, 45, 75]

/-- A world in which everything succeeds: home directory `/home/u`, a TLS certificate at
`/home/u/tls.pem`, a client certificate at `/home/u/cert.pem`, one key file `sk` in
`/home/u/keys`, a reachable gateway, and a contract answering `[52, 0, 50]`. -/
def happyEnv : Env where
  UserHomeDir := .ok "/home/u"
  ReadFile := fun name =>
    if name = "/home/u/tls.pem" ∨ name = "/home/u/cert.pem" then .ok goodCertPEM
    else if name = "/home/u/keys/sk" then .ok goodKeyPEM
    else .error "open: no such file or directory"
  ReadDir := fun name =>
    if name = "/home/u/keys" then .ok [⟨"sk"⟩]
    else .error "open: no such file or directory"
  Join := fun x y => x ++ "/" ++ y
  CertificateFromPEM := fun pem =>
    if pem = goodCertPEM then .ok ⟨1⟩ else .error "failed to parse certificate PEM"
  PrivateKeyFromPEM := fun pem =>
    if pem = goodKeyPEM then .ok ⟨2⟩ else .error "failed to parse private key PEM"
  NewPrivateKeySign := fun _ => .ok ⟨3⟩
  NewX509Identity := fun _ _ => .ok ⟨4⟩
  Dial := fun _ _ => .ok ⟨5⟩
  Connect := fun _ _ => .ok ⟨6⟩
  SubmitTransaction := fun _ _ _ => .ok []
  EvaluateTransaction := fun _ _ _ => .ok [52, 0, 50]

/-- The world of `happyEnv`, except that the key directory lists successfully and has no
entries. -/
def emptyKeyDirEnv : Env :=
  { happyEnv with
    ReadDir := fun name =>
      if name = "/home/u/keys" then .ok []
      else .error "open: no such file or directory" }

/-- The world of `happyEnv`, except that no certificate file content parses. -/
def badCertEnv : Env :=
  { happyEnv with
    CertificateFromPEM := fun _ => .error "failed to parse certificate PEM" }

/-- Arguments naming the files of `happyEnv` through the `~` shorthand. -/
def sampleArgs : Args where
  json_value := "42"
  function := "ReadAsset"
  channel := "mychannel"
  contractName := "basic"
  mspID := "Org1MSP"
  certPath := "~/cert.pem"
  keyPath := "~/keys"
  tlsCertPath := "~/tls.pem"
  peerEndpoint := "localhost:7051"
  gatewayPeer := "peer0.org1.example.com"

/-! ## Vocabulary for stating properties of traces -/

/-- The steps of one call, as the specification names them. -/
inductive StepKind where
  | connect
  | identity
  | sign
  | sessionOpen
  | resolveNetwork
  | resolveContract
  | operate
  | close
deriving DecidableEq, Repr

/-- The step an event belongs to. -/
def Event.kind : Event → StepKind
  | .newGrpcConnection _ _ _ _ => .connect
  | .newIdentity _ _ _ => .identity
  | .newSign _ _ => .sign
  | .Connect _ _ _ => .sessionOpen
  | .GetNetwork _ _ => .resolveNetwork
  | .GetContract _ _ => .resolveContract
  | .SubmitTransaction _ _ _ _ => .operate
  | .EvaluateTransaction _ _ _ _ => .operate
  | .GatewayClose _ => .close
  | .ConnClose _ => .close

/-- The order of the steps before the closes. -/
def stepOrder : List StepKind :=
  [.connect, .identity, .sign, .sessionOpen, .resolveNetwork, .resolveContract, .operate]

/-- Whether the call recorded by the event ended without error and without panic. -/
def Event.succeeded : Event → Bool
  | .newGrpcConnection _ _ _ connection => connection.isSome
  | .newIdentity _ _ status => status = .ok
  | .newSign _ status => status = .ok
  | .Connect _ _ gateway => gateway.isSome
  | .GetNetwork _ _ => true
  | .GetContract _ _ => true
  | .SubmitTransaction _ _ _ status => status = .ok
  | .EvaluateTransaction _ _ _ status => status = .ok
  | .GatewayClose _ => true
  | .ConnClose _ => true

/-- Whether the event closes a resource. -/
def Event.isClose (e : Event) : Bool :=
  e.kind = .close

/-- Whether the event is a call of `client.Connect`. -/
def Event.isSessionOpen (e : Event) : Bool :=
  e.kind = .sessionOpen

/-- Whether the event is a submit or an evaluate. -/
def Event.isOperate (e : Event) : Bool :=
  e.kind = .operate

/-- The close call owed for the resource an event opened, if it opened one. -/
def Event.release : Event → Option Event
  | .newGrpcConnection _ _ _ (some connection) => some (.ConnClose connection)
  | .Connect _ _ (some gateway) => some (.GatewayClose gateway)
  | _ => none

/-- Every resource a trace opens is closed exactly once, nothing else is closed, and the
closes are the last events of the trace. -/
def ReleasedExactlyOnce (t : List Event) : Prop :=
  t = t.filter (fun e => !e.isClose) ++ t.filter Event.isClose ∧
  (∀ e ∈ t, ∀ x, e.release = some x → t.count x = 1) ∧
  (∀ x ∈ t, x.isClose = true → ∃ e ∈ t, e.release = some x)

/-- The steps of a trace before its closes are an initial part of `stepOrder`, only the
last of them may have failed, and the closes are the last events of the trace. -/
def FollowsStepOrder (t : List Event) : Prop :=
  t = t.filter (fun e => !e.isClose) ++ t.filter Event.isClose ∧
  (t.filter (fun e => !e.isClose)).map Event.kind <+: stepOrder ∧
  (∀ e ∈ (t.filter (fun e => !e.isClose)).dropLast, e.succeeded = true)

/-- The settings of a gateway session that `client.Connect` derives from its options;
`none` stands for a setting no option touched. -/
structure GatewayConfig where
  sign : Option Sign
  clientConnection : Option ClientConn
  evaluateTimeout : Option Duration
  endorseTimeout : Option Duration
  submitTimeout : Option Duration
  commitStatusTimeout : Option Duration
deriving DecidableEq, Repr

/-- One option applied to the settings, as `client.Connect` does for each option in turn. -/
def applyOption (cfg : GatewayConfig) : ConnectOption → GatewayConfig
  | .WithSign s => { cfg with sign := some s }
  | .WithClientConnection c => { cfg with clientConnection := some c }
  | .WithEvaluateTimeout t => { cfg with evaluateTimeout := some t }
  | .WithEndorseTimeout t => { cfg with endorseTimeout := some t }
  | .WithSubmitTimeout t => { cfg with submitTimeout := some t }
  | .WithCommitStatusTimeout t => { cfg with commitStatusTimeout := some t }

/-- The settings after all options were applied in order. -/
def configOf (options : List ConnectOption) : GatewayConfig :=
  options.foldl applyOption ⟨none, none, none, none, none, none⟩

/-- Some step that `Read` runs fails: the transport or the identity construction returns
an error; the signer construction returns an error or raises a panic; or, once these
succeeded, the gateway connect returns an error; or, once that succeeded, the evaluate
returns an error. -/
def ReadStepFails (env : Env) (a : Args) : Prop :=
  (∃ e, newGrpcConnection env a.tlsCertPath a.peerEndpoint a.gatewayPeer = .error e) ∨
  (∃ e, newIdentity env a.mspID a.certPath = .error e) ∨
  (∃ e, newSign env a.keyPath = .error e) ∨
  (∃ r, newSign env a.keyPath = .fault r) ∨
  (∃ c id s e, newGrpcConnection env a.tlsCertPath a.peerEndpoint a.gatewayPeer = .ok c ∧
    newIdentity env a.mspID a.certPath = .ok id ∧ newSign env a.keyPath = .ok s ∧
    env.Connect id (connectOptions s c) = .error e) ∨
  (∃ c id s g e, newGrpcConnection env a.tlsCertPath a.peerEndpoint a.gatewayPeer = .ok c ∧
    newIdentity env a.mspID a.certPath = .ok id ∧ newSign env a.keyPath = .ok s ∧
    env.Connect id (connectOptions s c) = .ok g ∧
    env.EvaluateTransaction ⟨⟨g, a.channel⟩, a.contractName⟩ a.function [a.json_value]
      = .error e)

/-- The content of the file at `path` is read and does not parse as a certificate. -/
def CertificateMalformed (env : Env) (path : String) : Prop :=
  ∃ pem e, readFile env path = .ok pem ∧ env.CertificateFromPEM pem = .error e

/-- Path expansion as the specification words it: a leading `~` is replaced by the home
directory and the remainder is left unchanged; a path with no leading `~` is unchanged. -/
def specExpandLeadingTilde (homeDir path : String) : String :=
  match path.data with
  | '~' :: rest => ⟨homeDir.data ++ rest⟩
  | _ => path

/-- Path expansion with every `~` replaced by the home directory, character by
character. -/
def expandEveryTildeChars (homeDir : List Char) : List Char → List Char
  | [] => []
  | c :: cs => (if c = '~' then homeDir else [c]) ++ expandEveryTildeChars homeDir cs

/-- Path expansion with every `~` replaced by the home directory. -/
def expandEveryTilde (homeDir path : String) : String :=
  ⟨expandEveryTildeChars homeDir.data path.data⟩

/-- A world with home directory `/home/u` whose only file is `/data/a~b` and whose only
directory is `/data/d~1`. -/
def tildeEnv : Env :=
  { happyEnv with
    ReadFile := fun name =>
      if name = "/data/a~b" then .ok [7] else .error "open: no such file or directory"
    ReadDir := fun name =>
      if name = "/data/d~1" then .ok [⟨"sk"⟩] else .error "open: no such file or directory" }

/-! ## Shared case analysis -/

/-- The seven ways a call of `Write` can go, each with its exit and its full trace. -/
theorem Write_cases (env : Env) (a : Args) :
    (∃ e, newGrpcConnection env a.tlsCertPath a.peerEndpoint a.gatewayPeer = .error e ∧
      Write env a = ⟨.returned 1, [.newGrpcConnection a.tlsCertPath a.peerEndpoint a.gatewayPeer none]⟩) ∨
    (∃ c e, newGrpcConnection env a.tlsCertPath a.peerEndpoint a.gatewayPeer = .ok c ∧ newIdentity env a.mspID a.certPath = .error e ∧
      Write env a = ⟨.returned 1,
        [.newGrpcConnection a.tlsCertPath a.peerEndpoint a.gatewayPeer (some c),
         .newIdentity a.mspID a.certPath .failed,
         .ConnClose c]⟩) ∨
    (∃ c id e, newGrpcConnection env a.tlsCertPath a.peerEndpoint a.gatewayPeer = .ok c ∧ newIdentity env a.mspID a.certPath = .ok id ∧ newSign env a.keyPath = .error e ∧
      Write env a = ⟨.returned 1,
        [.newGrpcConnection a.tlsCertPath a.peerEndpoint a.gatewayPeer (some c),
         .newIdentity a.mspID a.certPath .ok,
         .newSign a.keyPath .failed,
         .ConnClose c]⟩) ∨
    (∃ c id r, newGrpcConnection env a.tlsCertPath a.peerEndpoint a.gatewayPeer = .ok c ∧ newIdentity env a.mspID a.certPath = .ok id ∧ newSign env a.keyPath = .fault r ∧
      Write env a = ⟨.panicked r,
        [.newGrpcConnection a.tlsCertPath a.peerEndpoint a.gatewayPeer (some c),
         .newIdentity a.mspID a.certPath .ok,
         .newSign a.keyPath .faulted,
         .ConnClose c]⟩) ∨
    (∃ c id s e, newGrpcConnection env a.tlsCertPath a.peerEndpoint a.gatewayPeer = .ok c ∧ newIdentity env a.mspID a.certPath = .ok id ∧ newSign env a.keyPath = .ok s ∧ env.Connect id (connectOptions s c) = .error e ∧
      Write env a = ⟨.returned 1,
        [.newGrpcConnection a.tlsCertPath a.peerEndpoint a.gatewayPeer (some c),
         .newIdentity a.mspID a.certPath .ok,
         .newSign a.keyPath .ok,
         .Connect id (connectOptions s c) none,
         .ConnClose c]⟩) ∨
    (∃ c id s g e, newGrpcConnection env a.tlsCertPath a.peerEndpoint a.gatewayPeer = .ok c ∧ newIdentity env a.mspID a.certPath = .ok id ∧ newSign env a.keyPath = .ok s ∧ env.Connect id (connectOptions s c) = .ok g ∧
      env.SubmitTransaction ⟨⟨g, a.channel⟩, a.contractName⟩ a.function [a.json_value] = .error e ∧
      Write env a = ⟨.returned 1,
        [.newGrpcConnection a.tlsCertPath a.peerEndpoint a.gatewayPeer (some c),
         .newIdentity a.mspID a.certPath .ok,
         .newSign a.keyPath .ok,
         .Connect id (connectOptions s c) (some g),
         .GetNetwork g a.channel,
         .GetContract ⟨g, a.channel⟩ a.contractName,
         .SubmitTransaction ⟨⟨g, a.channel⟩, a.contractName⟩ a.function [a.json_value] .failed,
         .GatewayClose g,
         .ConnClose c]⟩) ∨
    (∃ c id s g v, newGrpcConnection env a.tlsCertPath a.peerEndpoint a.gatewayPeer = .ok c ∧ newIdentity env a.mspID a.certPath = .ok id ∧ newSign env a.keyPath = .ok s ∧ env.Connect id (connectOptions s c) = .ok g ∧
      env.SubmitTransaction ⟨⟨g, a.channel⟩, a.contractName⟩ a.function [a.json_value] = .ok v ∧
      Write env a = ⟨.returned 0,
        [.newGrpcConnection a.tlsCertPath a.peerEndpoint a.gatewayPeer (some c),
         .newIdentity a.mspID a.certPath .ok,
         .newSign a.keyPath .ok,
         .Connect id (connectOptions s c) (some g),
         .GetNetwork g a.channel,
         .GetContract ⟨g, a.channel⟩ a.contractName,
         .SubmitTransaction ⟨⟨g, a.channel⟩, a.contractName⟩ a.function [a.json_value] .ok,
         .GatewayClose g,
         .ConnClose c]⟩) := by
  unfold Write
  cases h1 : newGrpcConnection env a.tlsCertPath a.peerEndpoint a.gatewayPeer with
  | error e => simp [Call.step, Call.ret, valueOf]
  | ok c =>
    cases h2 : newIdentity env a.mspID a.certPath with
    | error e => simp [Call.step, Call.ret, Call.defer, valueOf, statusOf]
    | ok id =>
      cases h3 : newSign env a.keyPath with
      | error e => simp [Call.step, Call.ret, Call.defer, valueOf, statusOf, GoResult.status]
      | fault r =>
        simp [Call.step, Call.fault, Call.defer, valueOf, statusOf, GoResult.status]
      | ok s =>
        cases h4 : env.Connect id (connectOptions s c) with
        | error e =>
          simp [Call.step, Call.ret, Call.defer, valueOf, statusOf, GoResult.status, h4]
        | ok g =>
          cases h5 : env.SubmitTransaction ⟨⟨g, a.channel⟩, a.contractName⟩ a.function [a.json_value] with
          | error e =>
            simp [Call.step, Call.ret, Call.defer, valueOf, statusOf, GoResult.status, h4,
              h5, Gateway.GetNetwork, Network.GetContract]
          | ok v =>
            simp [Call.step, Call.ret, Call.defer, valueOf, statusOf, GoResult.status, h4,
              h5, Gateway.GetNetwork, Network.GetContract]

/-- The seven ways a call of `Read` can go, each with its exit and its full trace. -/
theorem Read_cases (env : Env) (a : Args) :
    (∃ e, newGrpcConnection env a.tlsCertPath a.peerEndpoint a.gatewayPeer = .error e ∧
      Read env a = ⟨.returned (none, 0, 1), [.newGrpcConnection a.tlsCertPath a.peerEndpoint a.gatewayPeer none]⟩) ∨
    (∃ c e, newGrpcConnection env a.tlsCertPath a.peerEndpoint a.gatewayPeer = .ok c ∧ newIdentity env a.mspID a.certPath = .error e ∧
      Read env a = ⟨.returned (none, 0, 1),
        [.newGrpcConnection a.tlsCertPath a.peerEndpoint a.gatewayPeer (some c),
         .newIdentity a.mspID a.certPath .failed,
         .ConnClose c]⟩) ∨
    (∃ c id e, newGrpcConnection env a.tlsCertPath a.peerEndpoint a.gatewayPeer = .ok c ∧ newIdentity env a.mspID a.certPath = .ok id ∧ newSign env a.keyPath = .error e ∧
      Read env a = ⟨.returned (none, 0, 1),
        [.newGrpcConnection a.tlsCertPath a.peerEndpoint a.gatewayPeer (some c),
         .newIdentity a.mspID a.certPath .ok,
         .newSign a.keyPath .failed,
         .ConnClose c]⟩) ∨
    (∃ c id r, newGrpcConnection env a.tlsCertPath a.peerEndpoint a.gatewayPeer = .ok c ∧ newIdentity env a.mspID a.certPath = .ok id ∧ newSign env a.keyPath = .fault r ∧
      Read env a = ⟨.panicked r,
        [.newGrpcConnection a.tlsCertPath a.peerEndpoint a.gatewayPeer (some c),
         .newIdentity a.mspID a.certPath .ok,
         .newSign a.keyPath .faulted,
         .ConnClose c]⟩) ∨
    (∃ c id s e, newGrpcConnection env a.tlsCertPath a.peerEndpoint a.gatewayPeer = .ok c ∧ newIdentity env a.mspID a.certPath = .ok id ∧ newSign env a.keyPath = .ok s ∧ env.Connect id (connectOptions s c) = .error e ∧
      Read env a = ⟨.returned (none, 0, 1),
        [.newGrpcConnection a.tlsCertPath a.peerEndpoint a.gatewayPeer (some c),
         .newIdentity a.mspID a.certPath .ok,
         .newSign a.keyPath .ok,
         .Connect id (connectOptions s c) none,
         .ConnClose c]⟩) ∨
    (∃ c id s g e, newGrpcConnection env a.tlsCertPath a.peerEndpoint a.gatewayPeer = .ok c ∧ newIdentity env a.mspID a.certPath = .ok id ∧ newSign env a.keyPath = .ok s ∧ env.Connect id (connectOptions s c) = .ok g ∧
      env.EvaluateTransaction ⟨⟨g, a.channel⟩, a.contractName⟩ a.function [a.json_value] = .error e ∧
      Read env a = ⟨.returned (none, 0, 1),
        [.newGrpcConnection a.tlsCertPath a.peerEndpoint a.gatewayPeer (some c),
         .newIdentity a.mspID a.certPath .ok,
         .newSign a.keyPath .ok,
         .Connect id (connectOptions s c) (some g),
         .GetNetwork g a.channel,
         .GetContract ⟨g, a.channel⟩ a.contractName,
         .EvaluateTransaction ⟨⟨g, a.channel⟩, a.contractName⟩ a.function [a.json_value] .failed,
         .GatewayClose g,
         .ConnClose c]⟩) ∨
    (∃ c id s g v, newGrpcConnection env a.tlsCertPath a.peerEndpoint a.gatewayPeer = .ok c ∧ newIdentity env a.mspID a.certPath = .ok id ∧ newSign env a.keyPath = .ok s ∧ env.Connect id (connectOptions s c) = .ok g ∧
      env.EvaluateTransaction ⟨⟨g, a.channel⟩, a.contractName⟩ a.function [a.json_value] = .ok v ∧
      Read env a = ⟨.returned (some (CString v), (v.length : Int), 0),
        [.newGrpcConnection a.tlsCertPath a.peerEndpoint a.gatewayPeer (some c),
         .newIdentity a.mspID a.certPath .ok,
         .newSign a.keyPath .ok,
         .Connect id (connectOptions s c) (some g),
         .GetNetwork g a.channel,
         .GetContract ⟨g, a.channel⟩ a.contractName,
         .EvaluateTransaction ⟨⟨g, a.channel⟩, a.contractName⟩ a.function [a.json_value] .ok,
         .GatewayClose g,
         .ConnClose c]⟩) := by
  unfold Read
  cases h1 : newGrpcConnection env a.tlsCertPath a.peerEndpoint a.gatewayPeer with
  | error e => simp [Call.step, Call.ret, valueOf]
  | ok c =>
    cases h2 : newIdentity env a.mspID a.certPath with
    | error e => simp [Call.step, Call.ret, Call.defer, valueOf, statusOf]
    | ok id =>
      cases h3 : newSign env a.keyPath with
      | error e => simp [Call.step, Call.ret, Call.defer, valueOf, statusOf, GoResult.status]
      | fault r =>
        simp [Call.step, Call.fault, Call.defer, valueOf, statusOf, GoResult.status]
      | ok s =>
        cases h4 : env.Connect id (connectOptions s c) with
        | error e =>
          simp [Call.step, Call.ret, Call.defer, valueOf, statusOf, GoResult.status, h4]
        | ok g =>
          cases h5 : env.EvaluateTransaction ⟨⟨g, a.channel⟩, a.contractName⟩ a.function [a.json_value] with
          | error e =>
            simp [Call.step, Call.ret, Call.defer, valueOf, statusOf, GoResult.status, h4,
              h5, Gateway.GetNetwork, Network.GetContract]
          | ok v =>
            simp [Call.step, Call.ret, Call.defer, valueOf, statusOf, GoResult.status, h4,
              h5, Gateway.GetNetwork, Network.GetContract]

/-! ## Empty key directory -/

/-- C1 (the code departs from the claim): when the transport and the identity were built
and the key directory lists successfully with no entries, `newSign` does not return an
error: indexing the first entry raises a run-time panic, and `Write` and `Read` are left by
that panic instead of returning status 1. -/
theorem newSign_empty_directory_faults (env : Env) (a : Args) (c : ClientConn)
    (id : X509Identity)
    (h1 : newGrpcConnection env a.tlsCertPath a.peerEndpoint a.gatewayPeer = .ok c)
    (h2 : newIdentity env a.mspID a.certPath = .ok id)
    (hdir : readDir env a.keyPath = .ok []) :
    newSign env a.keyPath = .fault "index out of range [0] with length 0" ∧
    (Write env a).exit = .panicked "index out of range [0] with length 0" ∧
    (Read env a).exit = .panicked "index out of range [0] with length 0" := by
  have h3 : newSign env a.keyPath = .fault "index out of range [0] with length 0" := by
    simp [newSign, hdir]
  refine ⟨h3, ?_, ?_⟩
  · rcases Write_cases env a with ⟨e, g1, _⟩ | ⟨c1, e, _, g2, _⟩ | ⟨c1, i1, e, _, _, g3, _⟩ |
      ⟨c1, i1, r, _, _, g3, hW⟩ | ⟨c1, i1, s, e, _, _, g3, _⟩ |
      ⟨c1, i1, s, g, e, _, _, g3, _⟩ | ⟨c1, i1, s, g, v, _, _, g3, _⟩
    · rw [h1] at g1; cases g1
    · rw [h2] at g2; cases g2
    · rw [h3] at g3; cases g3
    · rw [h3] at g3; cases g3; rw [hW]
    · rw [h3] at g3; cases g3
    · rw [h3] at g3; cases g3
    · rw [h3] at g3; cases g3
  · rcases Read_cases env a with ⟨e, g1, _⟩ | ⟨c1, e, _, g2, _⟩ | ⟨c1, i1, e, _, _, g3, _⟩ |
      ⟨c1, i1, r, _, _, g3, hW⟩ | ⟨c1, i1, s, e, _, _, g3, _⟩ |
      ⟨c1, i1, s, g, e, _, _, g3, _⟩ | ⟨c1, i1, s, g, v, _, _, g3, _⟩
    · rw [h1] at g1; cases g1
    · rw [h2] at g2; cases g2
    · rw [h3] at g3; cases g3
    · rw [h3] at g3; cases g3; rw [hW]
    · rw [h3] at g3; cases g3
    · rw [h3] at g3; cases g3
    · rw [h3] at g3; cases g3

/-- C1, evaluated: in `emptyKeyDirEnv` the certificates load, the key directory `~/keys`
lists as empty, and `newSign`, `Write` and `Read` all end in the index panic. -/
theorem newSign_empty_directory_faults_witness :
    newGrpcConnection emptyKeyDirEnv sampleArgs.tlsCertPath sampleArgs.peerEndpoint
      sampleArgs.gatewayPeer = .ok ⟨5⟩ ∧
    newIdentity emptyKeyDirEnv sampleArgs.mspID sampleArgs.certPath = .ok ⟨4⟩ ∧
    readDir emptyKeyDirEnv sampleArgs.keyPath = .ok [] ∧
    (newSign emptyKeyDirEnv sampleArgs.keyPath
        = .fault "index out of range [0] with length 0" ∧
      (Write emptyKeyDirEnv sampleArgs).exit
        = .panicked "index out of range [0] with length 0" ∧
      (Read emptyKeyDirEnv sampleArgs).exit
        = .panicked "index out of range [0] with length 0") :=
  ⟨rfl, rfl, rfl,
    newSign_empty_directory_faults emptyKeyDirEnv sampleArgs ⟨5⟩ ⟨4⟩ rfl rfl rfl⟩

/-! ## Status codes -/

/-- What `Write` does in every world: it returns 0 exactly when the transport, the
identity, the signer, the gateway connect and the submit all succeed; it is left by a panic
exactly when the transport and the identity succeed and `newSign` panics; in every other
world it returns 1. -/
theorem Write_exit_characterised (env : Env) (a : Args) :
    ((Write env a).exit = .returned 0 ↔
      ∃ c id s g v, newGrpcConnection env a.tlsCertPath a.peerEndpoint a.gatewayPeer = .ok c ∧
        newIdentity env a.mspID a.certPath = .ok id ∧ newSign env a.keyPath = .ok s ∧
        env.Connect id (connectOptions s c) = .ok g ∧
        env.SubmitTransaction ⟨⟨g, a.channel⟩, a.contractName⟩ a.function [a.json_value]
          = .ok v) ∧
    (∀ r, (Write env a).exit = .panicked r ↔
      ∃ c id, newGrpcConnection env a.tlsCertPath a.peerEndpoint a.gatewayPeer = .ok c ∧
        newIdentity env a.mspID a.certPath = .ok id ∧ newSign env a.keyPath = .fault r) ∧
    ((Write env a).exit = .returned 0 ∨ (Write env a).exit = .returned 1 ∨
      ∃ r, (Write env a).exit = .panicked r) := by
  rcases Write_cases env a with ⟨e, g1, hW⟩ | ⟨c1, e, g1, g2, hW⟩ |
    ⟨c1, i1, e, g1, g2, g3, hW⟩ | ⟨c1, i1, r, g1, g2, g3, hW⟩ |
    ⟨c1, i1, s, e, g1, g2, g3, g4, hW⟩ | ⟨c1, i1, s, g, e, g1, g2, g3, g4, g5, hW⟩ |
    ⟨c1, i1, s, g, v, g1, g2, g3, g4, g5, hW⟩ <;>
  simp_all

/-- C2 (the code departs from the claim): in `emptyKeyDirEnv`, where the transport and the
identity are built and the key directory is empty, `Write` returns neither 0 nor 1: the
call is left by the index panic of `newSign`. -/
theorem Write_empty_key_directory_no_status :
    (Write emptyKeyDirEnv sampleArgs).exit = .panicked "index out of range [0] with length 0" ∧
    (Write emptyKeyDirEnv sampleArgs).exit ≠ .returned 0 ∧
    (Write emptyKeyDirEnv sampleArgs).exit ≠ .returned 1 := by
  decide

/-- What `Read` does when a step fails: it returns the nil buffer, length 0 and status 1,
except when the transport and the identity were built and `newSign` panics, where the call
is left by that panic and returns nothing. -/
theorem Read_exit_of_step_failure (env : Env) (a : Args) (h : ReadStepFails env a) :
    (Read env a).exit = .returned (none, 0, 1) ∨
    ∃ c id r, newGrpcConnection env a.tlsCertPath a.peerEndpoint a.gatewayPeer = .ok c ∧
      newIdentity env a.mspID a.certPath = .ok id ∧ newSign env a.keyPath = .fault r ∧
      (Read env a).exit = .panicked r := by
  rcases Read_cases env a with ⟨e, g1, hW⟩ | ⟨c1, e, g1, g2, hW⟩ |
    ⟨c1, i1, e, g1, g2, g3, hW⟩ | ⟨c1, i1, r, g1, g2, g3, hW⟩ |
    ⟨c1, i1, s, e, g1, g2, g3, g4, hW⟩ | ⟨c1, i1, s, g, e, g1, g2, g3, g4, g5, hW⟩ |
    ⟨c1, i1, s, g, v, g1, g2, g3, g4, g5, hW⟩
  · exact Or.inl (by rw [hW])
  · exact Or.inl (by rw [hW])
  · exact Or.inl (by rw [hW])
  · exact Or.inr ⟨c1, i1, r, g1, g2, g3, by rw [hW]⟩
  · exact Or.inl (by rw [hW])
  · exact Or.inl (by rw [hW])
  · exfalso
    rcases h with ⟨e, k⟩ | ⟨e, k⟩ | ⟨e, k⟩ | ⟨e, k⟩ | ⟨c, i, s, e, k1, k2, k3, k4⟩ |
      ⟨c, i, s, g, e, k1, k2, k3, k4, k5⟩ <;> simp_all

/-- In no world does `Read` return status 1 together with a non-nil buffer or a non-zero
length. -/
theorem Read_status_one_has_nil_buffer (env : Env) (a : Args) (buf : Option Bytes) (n : Int)
    (hr : (Read env a).exit = .returned (buf, n, 1)) : buf = none ∧ n = 0 := by
  rcases Read_cases env a with ⟨e, g1, hW⟩ | ⟨c1, e, g1, g2, hW⟩ |
    ⟨c1, i1, e, g1, g2, g3, hW⟩ | ⟨c1, i1, r, g1, g2, g3, hW⟩ |
    ⟨c1, i1, s, e, g1, g2, g3, g4, hW⟩ | ⟨c1, i1, s, g, e, g1, g2, g3, g4, g5, hW⟩ |
    ⟨c1, i1, s, g, v, g1, g2, g3, g4, g5, hW⟩ <;>
  · rw [hW] at hr
    simp at hr
    try simp [← hr.1, ← hr.2]

/-- C3 (the code departs from the claim): in `emptyKeyDirEnv` the signer step of `Read`
fails, since `newSign` panics on the empty key directory, yet `Read` does not return the
nil buffer, length 0 and status 1: the call is left by the panic and returns nothing. -/
theorem Read_empty_key_directory_no_result :
    ReadStepFails emptyKeyDirEnv sampleArgs ∧
    (Read emptyKeyDirEnv sampleArgs).exit
      = .panicked "index out of range [0] with length 0" ∧
    (Read emptyKeyDirEnv sampleArgs).exit ≠ .returned (none, 0, 1) :=
  ⟨Or.inr (Or.inr (Or.inr (Or.inl ⟨"index out of range [0] with length 0", rfl⟩))),
    by decide, by decide⟩

/-! ## Successful read -/

/-- C4: when the transport, the identity, the signer and the gateway connect succeed and
the evaluate returns the bytes `v`, `Read` returns status 0, the length of `v`, and a buffer
whose first `v.length` bytes are exactly `v`, whatever bytes `v` holds. -/
theorem Read_success_returns_payload (env : Env) (a : Args) (c : ClientConn)
    (id : X509Identity) (s : Sign) (g : Gateway) (v : Bytes)
    (h1 : newGrpcConnection env a.tlsCertPath a.peerEndpoint a.gatewayPeer = .ok c)
    (h2 : newIdentity env a.mspID a.certPath = .ok id)
    (h3 : newSign env a.keyPath = .ok s)
    (h4 : env.Connect id (connectOptions s c) = .ok g)
    (h5 : env.EvaluateTransaction ((g.GetNetwork a.channel).GetContract a.contractName)
      a.function [a.json_value] = .ok v) :
    ∃ buf : Bytes, (Read env a).exit = .returned (some buf, (v.length : Int), 0) ∧
      buf.take v.length = v := by
  refine ⟨CString v, ?_, by simp [CString]⟩
  simp only [Gateway.GetNetwork, Network.GetContract] at h5
  rcases Read_cases env a with ⟨e, g1, hW⟩ | ⟨c1, e, g1, g2, hW⟩ |
    ⟨c1, i1, e, g1, g2, g3, hW⟩ | ⟨c1, i1, r, g1, g2, g3, hW⟩ |
    ⟨c1, i1, s1, e, g1, g2, g3, g4, hW⟩ | ⟨c1, i1, s1, g0, e, g1, g2, g3, g4, g5, hW⟩ |
    ⟨c1, i1, s1, g0, v1, g1, g2, g3, g4, g5, hW⟩ <;> simp_all

/-- C4, evaluated: in `happyEnv` the evaluate answers `[52, 0, 50]`, which holds a zero
byte; `Read` returns status 0, length 3 and a buffer starting with these three bytes. -/
theorem Read_success_returns_payload_witness :
    ∃ buf : Bytes, (Read happyEnv sampleArgs).exit = .returned (some buf, 3, 0) ∧
      buf.take 3 = [52, 0, 50] :=
  Read_success_returns_payload happyEnv sampleArgs ⟨5⟩ ⟨4⟩ ⟨3⟩ ⟨6⟩ [52, 0, 50]
    rfl rfl rfl rfl rfl

/-! ## Malformed certificates -/

/-- A certificate file whose content does not parse makes `loadCertificate` return an
error. -/
theorem loadCertificate_error_of_malformed (env : Env) (path : String)
    (h : CertificateMalformed env path) : ∃ e, loadCertificate env path = .error e := by
  obtain ⟨pem, e, hr, hp⟩ := h
  exact ⟨e, by simp [loadCertificate, hr, hp]⟩

/-- C5: when the content of the TLS certificate file or of the client certificate file
does not parse as a certificate, `Write` returns 1 and `Read` returns status 1, neither is
left by a panic, and neither trace holds a `client.Connect`, a submit or an evaluate. -/
theorem malformed_certificate_returns_one (env : Env) (a : Args)
    (h : CertificateMalformed env a.tlsCertPath ∨ CertificateMalformed env a.certPath) :
    (Write env a).exit = .returned 1 ∧
    (Read env a).exit = .returned (none, 0, 1) ∧
    (∀ e ∈ (Write env a).trace, e.isSessionOpen = false ∧ e.isOperate = false) ∧
    (∀ e ∈ (Read env a).trace, e.isSessionOpen = false ∧ e.isOperate = false) := by
  have key : (∃ e, newGrpcConnection env a.tlsCertPath a.peerEndpoint a.gatewayPeer
      = .error e) ∨ (∃ e, newIdentity env a.mspID a.certPath = .error e) := by
    rcases h with h | h
    · obtain ⟨e, he⟩ := loadCertificate_error_of_malformed env _ h
      refine Or.inl ?_
      simp [newGrpcConnection, he]
    · obtain ⟨e, he⟩ := loadCertificate_error_of_malformed env _ h
      refine Or.inr ?_
      simp [newIdentity, he]
  have hWrite : (Write env a).exit = .returned 1 ∧
      ∀ e ∈ (Write env a).trace, e.isSessionOpen = false ∧ e.isOperate = false := by
    rcases Write_cases env a with ⟨e, g1, hW⟩ | ⟨c1, e, g1, g2, hW⟩ |
      ⟨c1, i1, e, g1, g2, g3, hW⟩ | ⟨c1, i1, r, g1, g2, g3, hW⟩ |
      ⟨c1, i1, s1, e, g1, g2, g3, g4, hW⟩ | ⟨c1, i1, s1, g0, e, g1, g2, g3, g4, g5, hW⟩ |
      ⟨c1, i1, s1, g0, v1, g1, g2, g3, g4, g5, hW⟩ <;>
    simp_all [Event.isSessionOpen, Event.isOperate, Event.kind]
  have hRead : (Read env a).exit = .returned (none, 0, 1) ∧
      ∀ e ∈ (Read env a).trace, e.isSessionOpen = false ∧ e.isOperate = false := by
    rcases Read_cases env a with ⟨e, g1, hW⟩ | ⟨c1, e, g1, g2, hW⟩ |
      ⟨c1, i1, e, g1, g2, g3, hW⟩ | ⟨c1, i1, r, g1, g2, g3, hW⟩ |
      ⟨c1, i1, s1, e, g1, g2, g3, g4, hW⟩ | ⟨c1, i1, s1, g0, e, g1, g2, g3, g4, g5, hW⟩ |
      ⟨c1, i1, s1, g0, v1, g1, g2, g3, g4, g5, hW⟩ <;>
    simp_all [Event.isSessionOpen, Event.isOperate, Event.kind]
  exact ⟨hWrite.1, hRead.1, hWrite.2, hRead.2⟩

/-- C5, evaluated: in `badCertEnv` the TLS certificate file is read and its content does
not parse; `Write` returns 1, `Read` returns status 1, and no session is opened. -/
theorem malformed_certificate_returns_one_witness :
    CertificateMalformed badCertEnv sampleArgs.tlsCertPath ∧
    (Write badCertEnv sampleArgs).exit = .returned 1 ∧
    (Read badCertEnv sampleArgs).exit = .returned (none, 0, 1) ∧
    (∀ e ∈ (Write badCertEnv sampleArgs).trace,
      e.isSessionOpen = false ∧ e.isOperate = false) ∧
    (∀ e ∈ (Read badCertEnv sampleArgs).trace,
      e.isSessionOpen = false ∧ e.isOperate = false) :=
  have h : CertificateMalformed badCertEnv sampleArgs.tlsCertPath :=
    ⟨goodCertPEM, "failed to parse certificate PEM", rfl, rfl⟩
  ⟨h, malformed_certificate_returns_one badCertEnv sampleArgs (Or.inl h)⟩

/-! ## Resource lifetimes and step order -/

/-- C6: in every world, for `Write` and for `Read`, every resource the call opened is
closed exactly once, nothing is closed that was not opened, and the closes are the last
events of the call; in particular a transport that was built is closed exactly once, on
the success path, on every error path and on the panic path alike. -/
theorem resources_closed_exactly_once (env : Env) (a : Args) :
    ReleasedExactlyOnce (Write env a).trace ∧
    ReleasedExactlyOnce (Read env a).trace ∧
    (∀ c, newGrpcConnection env a.tlsCertPath a.peerEndpoint a.gatewayPeer = .ok c →
      (Write env a).trace.count (.ConnClose c) = 1 ∧
      (Read env a).trace.count (.ConnClose c) = 1) := by
  refine ⟨?_, ?_, ?_⟩
  · rcases Write_cases env a with ⟨e, g1, hW⟩ | ⟨c1, e, g1, g2, hW⟩ |
      ⟨c1, i1, e, g1, g2, g3, hW⟩ | ⟨c1, i1, r, g1, g2, g3, hW⟩ |
      ⟨c1, i1, s1, e, g1, g2, g3, g4, hW⟩ | ⟨c1, i1, s1, g0, e, g1, g2, g3, g4, g5, hW⟩ |
      ⟨c1, i1, s1, g0, v1, g1, g2, g3, g4, g5, hW⟩ <;>
    · rw [hW]
      refine ⟨?_, ?_, ?_⟩
      · simp [Event.isClose, Event.kind]
      · simp only [List.forall_mem_cons, Event.release]
        simp
      · simp [Event.isClose, Event.kind, Event.release]
  · rcases Read_cases env a with ⟨e, g1, hW⟩ | ⟨c1, e, g1, g2, hW⟩ |
      ⟨c1, i1, e, g1, g2, g3, hW⟩ | ⟨c1, i1, r, g1, g2, g3, hW⟩ |
      ⟨c1, i1, s1, e, g1, g2, g3, g4, hW⟩ | ⟨c1, i1, s1, g0, e, g1, g2, g3, g4, g5, hW⟩ |
      ⟨c1, i1, s1, g0, v1, g1, g2, g3, g4, g5, hW⟩ <;>
    · rw [hW]
      refine ⟨?_, ?_, ?_⟩
      · simp [Event.isClose, Event.kind]
      · simp only [List.forall_mem_cons, Event.release]
        simp
      · simp [Event.isClose, Event.kind, Event.release]
  · intro c hc
    constructor
    · rcases Write_cases env a with ⟨e, g1, hW⟩ | ⟨c1, e, g1, g2, hW⟩ |
      ⟨c1, i1, e, g1, g2, g3, hW⟩ | ⟨c1, i1, r, g1, g2, g3, hW⟩ |
      ⟨c1, i1, s1, e, g1, g2, g3, g4, hW⟩ | ⟨c1, i1, s1, g0, e, g1, g2, g3, g4, g5, hW⟩ |
      ⟨c1, i1, s1, g0, v1, g1, g2, g3, g4, g5, hW⟩ <;>
      simp_all
    · rcases Read_cases env a with ⟨e, g1, hW⟩ | ⟨c1, e, g1, g2, hW⟩ |
      ⟨c1, i1, e, g1, g2, g3, hW⟩ | ⟨c1, i1, r, g1, g2, g3, hW⟩ |
      ⟨c1, i1, s1, e, g1, g2, g3, g4, hW⟩ | ⟨c1, i1, s1, g0, e, g1, g2, g3, g4, g5, hW⟩ |
      ⟨c1, i1, s1, g0, v1, g1, g2, g3, g4, g5, hW⟩ <;>
      simp_all

/-- C7: in every world, for `Write` and for `Read`, the steps performed before the closes
are an initial part of connect, identity, sign, session-open, resolve network, resolve
contract, operate, in this order; every step but the last performed one succeeded; the
closes come after all of them. -/
theorem steps_follow_order (env : Env) (a : Args) :
    FollowsStepOrder (Write env a).trace ∧ FollowsStepOrder (Read env a).trace := by
  constructor
  · rcases Write_cases env a with ⟨e, g1, hW⟩ | ⟨c1, e, g1, g2, hW⟩ |
      ⟨c1, i1, e, g1, g2, g3, hW⟩ | ⟨c1, i1, r, g1, g2, g3, hW⟩ |
      ⟨c1, i1, s1, e, g1, g2, g3, g4, hW⟩ | ⟨c1, i1, s1, g0, e, g1, g2, g3, g4, g5, hW⟩ |
      ⟨c1, i1, s1, g0, v1, g1, g2, g3, g4, g5, hW⟩ <;>
    simp [hW, FollowsStepOrder, Event.isClose, Event.kind, Event.succeeded, stepOrder]
  · rcases Read_cases env a with ⟨e, g1, hW⟩ | ⟨c1, e, g1, g2, hW⟩ |
      ⟨c1, i1, e, g1, g2, g3, hW⟩ | ⟨c1, i1, r, g1, g2, g3, hW⟩ |
      ⟨c1, i1, s1, e, g1, g2, g3, g4, hW⟩ | ⟨c1, i1, s1, g0, e, g1, g2, g3, g4, g5, hW⟩ |
      ⟨c1, i1, s1, g0, v1, g1, g2, g3, g4, g5, hW⟩ <;>
    simp [hW, FollowsStepOrder, Event.isClose, Event.kind, Event.succeeded, stepOrder]

/-! ## What reaches the gateway -/

/-- C8: an operate event of `Write` is a submit, and one of `Read` an evaluate, on the
contract named `contractName` of the network named `channel`, with transaction name
`function` and the single argument `json_value`, all as the caller gave them. -/
theorem operate_uses_caller_arguments (env : Env) (a : Args) (e : Event)
    (hop : e.isOperate = true) :
    (e ∈ (Write env a).trace → ∃ g st,
      e = .SubmitTransaction ⟨⟨g, a.channel⟩, a.contractName⟩ a.function [a.json_value] st) ∧
    (e ∈ (Read env a).trace → ∃ g st,
      e = .EvaluateTransaction ⟨⟨g, a.channel⟩, a.contractName⟩ a.function [a.json_value]
        st) := by
  have hWrite : ∀ x ∈ (Write env a).trace, x.isOperate = true → ∃ g st,
      x = .SubmitTransaction ⟨⟨g, a.channel⟩, a.contractName⟩ a.function [a.json_value]
        st := by
    rcases Write_cases env a with ⟨e1, g1, hW⟩ | ⟨c1, e1, g1, g2, hW⟩ |
      ⟨c1, i1, e1, g1, g2, g3, hW⟩ | ⟨c1, i1, r1, g1, g2, g3, hW⟩ |
      ⟨c1, i1, s1, e1, g1, g2, g3, g4, hW⟩ | ⟨c1, i1, s1, g0, e1, g1, g2, g3, g4, g5, hW⟩ |
      ⟨c1, i1, s1, g0, v1, g1, g2, g3, g4, g5, hW⟩ <;>
    simp [hW, Event.isOperate, Event.kind]
  have hRead : ∀ x ∈ (Read env a).trace, x.isOperate = true → ∃ g st,
      x = .EvaluateTransaction ⟨⟨g, a.channel⟩, a.contractName⟩ a.function [a.json_value]
        st := by
    rcases Read_cases env a with ⟨e1, g1, hW⟩ | ⟨c1, e1, g1, g2, hW⟩ |
      ⟨c1, i1, e1, g1, g2, g3, hW⟩ | ⟨c1, i1, r1, g1, g2, g3, hW⟩ |
      ⟨c1, i1, s1, e1, g1, g2, g3, g4, hW⟩ | ⟨c1, i1, s1, g0, e1, g1, g2, g3, g4, g5, hW⟩ |
      ⟨c1, i1, s1, g0, v1, g1, g2, g3, g4, g5, hW⟩ <;>
    simp [hW, Event.isOperate, Event.kind]
  exact ⟨fun hmem => hWrite e hmem hop, fun hmem => hRead e hmem hop⟩

/-- C8, evaluated: in `happyEnv` the submit of `Write` is in the trace and carries the
caller's channel, contract name, function and payload. -/
theorem operate_uses_caller_arguments_witness :
    Event.SubmitTransaction ⟨⟨⟨6⟩, "mychannel"⟩, "basic"⟩ "ReadAsset" ["42"] .ok
      ∈ (Write happyEnv sampleArgs).trace ∧
    ∃ g st, Event.SubmitTransaction ⟨⟨⟨6⟩, "mychannel"⟩, "basic"⟩ "ReadAsset" ["42"] .ok
      = .SubmitTransaction ⟨⟨g, sampleArgs.channel⟩, sampleArgs.contractName⟩
          sampleArgs.function [sampleArgs.json_value] st :=
  ⟨by decide,
    (operate_uses_caller_arguments happyEnv sampleArgs
      (.SubmitTransaction ⟨⟨⟨6⟩, "mychannel"⟩, "basic"⟩ "ReadAsset" ["42"] .ok) rfl).1
      (by decide)⟩

/-- C10: whenever `Write` or `Read` calls `client.Connect`, the options it passes set the
evaluate timeout to 5 s, the endorse timeout to 15 s, the submit timeout to 5 s and the
commit-status timeout to 60 s (in nanoseconds), whatever the arguments of the call. -/
theorem session_opened_with_fixed_timeouts (env : Env) (a : Args) (id : X509Identity)
    (options : List ConnectOption) (r : Option Gateway)
    (h : Event.Connect id options r ∈ (Write env a).trace ∨
      Event.Connect id options r ∈ (Read env a).trace) :
    (configOf options).evaluateTimeout = some 5000000000 ∧
    (configOf options).endorseTimeout = some 15000000000 ∧
    (configOf options).submitTimeout = some 5000000000 ∧
    (configOf options).commitStatusTimeout = some 60000000000 := by
  have key : ∃ s c, options = connectOptions s c := by
    rcases h with h | h
    · rcases Write_cases env a with ⟨e1, g1, hW⟩ | ⟨c1, e1, g1, g2, hW⟩ |
      ⟨c1, i1, e1, g1, g2, g3, hW⟩ | ⟨c1, i1, r1, g1, g2, g3, hW⟩ |
      ⟨c1, i1, s1, e1, g1, g2, g3, g4, hW⟩ | ⟨c1, i1, s1, g0, e1, g1, g2, g3, g4, g5, hW⟩ |
      ⟨c1, i1, s1, g0, v1, g1, g2, g3, g4, g5, hW⟩ <;>
      simp [hW] at h <;> exact ⟨_, _, h.2.1⟩
    · rcases Read_cases env a with ⟨e1, g1, hW⟩ | ⟨c1, e1, g1, g2, hW⟩ |
      ⟨c1, i1, e1, g1, g2, g3, hW⟩ | ⟨c1, i1, r1, g1, g2, g3, hW⟩ |
      ⟨c1, i1, s1, e1, g1, g2, g3, g4, hW⟩ | ⟨c1, i1, s1, g0, e1, g1, g2, g3, g4, g5, hW⟩ |
      ⟨c1, i1, s1, g0, v1, g1, g2, g3, g4, g5, hW⟩ <;>
      simp [hW] at h <;> exact ⟨_, _, h.2.1⟩
  obtain ⟨s, c, rfl⟩ := key
  simp [configOf, connectOptions, applyOption, Second, Minute]

/-- C10, evaluated: in `happyEnv` both entry points open the session, with these four
timeouts. -/
theorem session_opened_with_fixed_timeouts_witness :
    Event.Connect ⟨4⟩ (connectOptions ⟨3⟩ ⟨5⟩) (some ⟨6⟩) ∈ (Write happyEnv sampleArgs).trace ∧
    Event.Connect ⟨4⟩ (connectOptions ⟨3⟩ ⟨5⟩) (some ⟨6⟩) ∈ (Read happyEnv sampleArgs).trace ∧
    ((configOf (connectOptions ⟨3⟩ ⟨5⟩)).evaluateTimeout = some 5000000000 ∧
      (configOf (connectOptions ⟨3⟩ ⟨5⟩)).endorseTimeout = some 15000000000 ∧
      (configOf (connectOptions ⟨3⟩ ⟨5⟩)).submitTimeout = some 5000000000 ∧
      (configOf (connectOptions ⟨3⟩ ⟨5⟩)).commitStatusTimeout = some 60000000000) :=
  ⟨by decide, by decide,
    session_opened_with_fixed_timeouts happyEnv sampleArgs ⟨4⟩ (connectOptions ⟨3⟩ ⟨5⟩)
      (some ⟨6⟩) (Or.inl (by decide))⟩

/-! ## Home-directory expansion -/

/-- Replacing every occurrence of the one-character string `~`, as `strings.ReplaceAll`
does, is the character-by-character expansion. -/
theorem replaceAllChars_tilde (homeDir : List Char) (cs : List Char) :
    replaceAllChars ['~'] homeDir 0 cs = expandEveryTildeChars homeDir cs := by
  induction cs with
  | nil => rfl
  | cons c cs ih =>
    by_cases hc : c = '~'
    · subst hc
      simp [replaceAllChars, expandEveryTildeChars, List.isPrefixOf, ih]
    · have hc2 : ¬ ('~' = c) := fun h => hc h.symm
      simp [replaceAllChars, expandEveryTildeChars, List.isPrefixOf, ih, hc, hc2]

/-- The character-by-character expansion leaves a list without `~` unchanged. -/
theorem expandEveryTildeChars_of_not_mem (homeDir : List Char) (cs : List Char)
    (h : '~' ∉ cs) : expandEveryTildeChars homeDir cs = cs := by
  induction cs with
  | nil => rfl
  | cons c cs ih =>
    have hc : ¬ (c = '~') := fun hc => h (by simp [hc])
    have hcs : '~' ∉ cs := fun hm => h (List.mem_cons_of_mem _ hm)
    simp [expandEveryTildeChars, hc, ih hcs]

/-- C9 (refuted as stated): with home directory `/home/u`, `readFile` given `/data/a~b`,
a path with no leading `~`, does not open `/data/a~b`: it opens `/data/a/home/ub` and so
misses the file; `readDir` given `/data/d~1` likewise opens `/data/d/home/u1`. -/
theorem readFile_inner_tilde_counterexample :
    tildeEnv.UserHomeDir = .ok "/home/u" ∧
    specExpandLeadingTilde "/home/u" "/data/a~b" = "/data/a~b" ∧
    readFile tildeEnv "/data/a~b" = tildeEnv.ReadFile "/data/a/home/ub" ∧
    readFile tildeEnv "/data/a~b"
      ≠ tildeEnv.ReadFile (specExpandLeadingTilde "/home/u" "/data/a~b") ∧
    readDir tildeEnv "/data/d~1" = tildeEnv.ReadDir "/data/d/home/u1" ∧
    readDir tildeEnv "/data/d~1"
      ≠ tildeEnv.ReadDir (specExpandLeadingTilde "/home/u" "/data/d~1") := by
  have f1 : readFile tildeEnv "/data/a~b" = .error "open: no such file or directory" := rfl
  have f2 : tildeEnv.ReadFile (specExpandLeadingTilde "/home/u" "/data/a~b") = .ok [7] := rfl
  have d1 : readDir tildeEnv "/data/d~1" = .error "open: no such file or directory" := rfl
  have d2 : tildeEnv.ReadDir (specExpandLeadingTilde "/home/u" "/data/d~1")
      = .ok [⟨"sk"⟩] := rfl
  refine ⟨rfl, rfl, rfl, ?_, rfl, ?_⟩
  · rw [f1, f2]; exact fun h => nomatch h
  · rw [d1, d2]; exact fun h => nomatch h

/-- C9 (amended): with home directory `h`, `readFile` and `readDir` given the path `p`
open `p` with every `~` in it replaced by `h`, the rest unchanged; a path holding no `~`
is opened unchanged. -/
theorem readFile_readDir_expand_every_tilde (env : Env) (p h : String)
    (hh : env.UserHomeDir = .ok h) :
    readFile env p = env.ReadFile (expandEveryTilde h p) ∧
    readDir env p = env.ReadDir (expandEveryTilde h p) ∧
    ('~' ∉ p.data → expandEveryTilde h p = p) := by
  have key : ReplaceAll p "~" h = expandEveryTilde h p := by
    simp only [ReplaceAll, expandEveryTilde]
    exact congrArg String.mk (replaceAllChars_tilde h.data p.data)
  refine ⟨?_, ?_, ?_⟩
  · simp [readFile, hh, key]
  · simp [readDir, hh, key]
  · intro hp
    simp only [expandEveryTilde]
    rw [expandEveryTildeChars_of_not_mem h.data p.data hp]

/-- C9 (amended), evaluated: in `happyEnv`, whose home directory is `/home/u`, the path
`~/tls.pem` is expanded to `/home/u/tls.pem`, and that is the name `readFile` and `readDir`
open. -/
theorem readFile_readDir_expand_every_tilde_witness :
    happyEnv.UserHomeDir = .ok "/home/u" ∧
    expandEveryTilde "/home/u" "~/tls.pem" = "/home/u/tls.pem" ∧
    readFile happyEnv "~/tls.pem" = happyEnv.ReadFile (expandEveryTilde "/home/u" "~/tls.pem") ∧
    readDir happyEnv "~/tls.pem" = happyEnv.ReadDir (expandEveryTilde "/home/u" "~/tls.pem") :=
  have t := readFile_readDir_expand_every_tilde happyEnv "~/tls.pem" "/home/u" rfl
  ⟨rfl, by decide, t.1, t.2.1⟩

end TrustdbleClient
